import Mathlib

/-!
Shallow embedding of the servo PPM driver (src/module/servo.c) and of the
user-space busy-loop variant (src/src/servo_user_test.c), with theorems
checking the specification's claims against the code.

Machine integers are modelled as Nat with explicit reduction modulo 2^w at
the places where wraparound matters (the unsigned long subtraction producing
t_next, and the reinterpretation of a parsed int as the unsigned period_ns
variable).
-/

namespace Servo

/-- Minimum pulse width in nanoseconds (MIN_PERIOD, servo.c line 37). -/
def MIN_PERIOD : Nat := 1000000

/-- Maximum pulse width in nanoseconds (MAX_PERIOD, servo.c line 38). -/
def MAX_PERIOD : Nat := 2000000

/-- Frame period in nanoseconds (SERVO_PERIOD, servo.c line 39). -/
def SERVO_PERIOD : Nat := 20000000

/-- Bit number of the enabled flag (servo.c line 42). -/
def SERVO_ENABLED : Nat := 0

/-- Bit number of the inverted flag (servo.c line 43). -/
def SERVO_INVERTED : Nat := 1

/-- Bit number of the phase bit: set while in the PULSE_HIGH half of the
frame (servo.c line 44). -/
def SERVO_ACTIVE : Nat := 2

/-- Bit number of the open-session guard (servo.c line 45). -/
def SERVO_OPEN : Nat := 3

/-- Width in bits of the unsigned long word the kernel bitmap operations
test_bit, set_bit, clear_bit and change_bit act on. -/
def BITS_PER_LONG : Nat := 64

/-- Modulus of 64-bit unsigned arithmetic. -/
def U64 : Nat := 18446744073709551616

/-- Modulus of 32-bit unsigned arithmetic. -/
def U32 : Nat := 4294967296

/-- Kernel test_bit on a flags word. -/
def test_bit (nr : Nat) (flags : Nat) : Bool := flags.testBit nr

/-- Kernel set_bit on a flags word. -/
def set_bit (nr : Nat) (flags : Nat) : Nat := flags ||| 1 <<< nr

/-- Kernel clear_bit on a flags word: mask off bit nr of the 64-bit word. -/
def clear_bit (nr : Nat) (flags : Nat) : Nat :=
  flags &&& ((2 ^ BITS_PER_LONG - 1) ^^^ (1 <<< nr))

/-- Kernel change_bit on a flags word: toggle bit nr. -/
def change_bit (nr : Nat) (flags : Nat) : Nat := flags ^^^ (1 <<< nr)

/-- Wrapping unsigned long subtraction, as performed by the expression
SERVO_PERIOD - t_switch at servo.c line 284 when t_switch is unsigned long. -/
def sub_u64 (a b : Nat) : Nat := (a + (U64 - b % U64)) % U64

/-- Per-channel state, mirroring struct servo_data (servo.c lines 57-66)
together with the two pieces of per-channel state living outside the struct:
the level last driven onto the gpio line, and the absolute expiry time of the
channel's hrtimer in nanoseconds. -/
structure servo_data where
  gpio_value : Bool
  period_ns : Nat
  flags : Nat
  t_switch : Nat
  t_next : Nat
  idx : Nat
  expires : Nat
deriving DecidableEq, Repr

/-- Channel state as initialized by servo_probe (servo.c lines 182-184):
period_ns = MIN_PERIOD, flags = 0, idx = 0, with the line driven high by the
GPIOD_OUT_HIGH acquisition at line 176. -/
def init_servo : servo_data :=
  { gpio_value := true, period_ns := MIN_PERIOD, flags := 0,
    t_switch := 0, t_next := 0, idx := 0, expires := 0 }

/-- Concrete channel state used to evaluate theorems: enabled, not inverted,
idle phase, width 1,500,000 ns, one frame of deadlines already elapsed. -/
def enabled_servo : servo_data :=
  { gpio_value := false, period_ns := 1500000, flags := 1,
    t_switch := 0, t_next := 0, idx := 0, expires := 20000000 }

/-- Concrete channel state whose control session is already open: flags hold
only the SERVO_OPEN bit. -/
def opened_servo : servo_data :=
  { gpio_value := true, period_ns := MIN_PERIOD, flags := 8,
    t_switch := 0, t_next := 0, idx := 0, expires := 0 }

/-- Timer callback servo_cb (servo.c lines 266-294). The parameter now is the
wall-clock (CLOCK_MONOTONIC) instant at which the callback actually runs; the
code never reads it, re-arming purely by hrtimer_add_expires_ns on the
previous expiry. -/
def servo_cb (_now : Nat) (servo : servo_data) : servo_data :=
  if test_bit SERVO_ENABLED servo.flags then
    if test_bit SERVO_ACTIVE servo.flags then
      { servo with
          gpio_value := test_bit SERVO_INVERTED servo.flags,
          flags := clear_bit SERVO_ACTIVE servo.flags,
          expires := servo.expires + servo.t_next }
    else
      let t_switch := servo.period_ns
      { servo with
          gpio_value := !test_bit SERVO_INVERTED servo.flags,
          flags := set_bit SERVO_ACTIVE servo.flags,
          t_switch := t_switch,
          t_next := sub_u64 SERVO_PERIOD t_switch,
          expires := servo.expires + t_switch }
  else
    { servo with expires := servo.expires + SERVO_PERIOD }

/-- Open of a channel's control session, servo_open (servo.c lines 296-309):
reject with -1 when the SERVO_OPEN bit is already set, otherwise set it. -/
def servo_open (servo : servo_data) : servo_data × Int :=
  if test_bit SERVO_OPEN servo.flags then (servo, -1)
  else ({ servo with flags := set_bit SERVO_OPEN servo.flags }, 0)

/-- Release of a channel's control session, servo_release (servo.c lines
311-316): clear the SERVO_OPEN bit, return 0. -/
def servo_release (servo : servo_data) : servo_data × Int :=
  ({ servo with flags := clear_bit SERVO_OPEN servo.flags }, 0)

/-- Number of bytes servo_write copies from the user buffer:
klen = len < 15 ? len : 15 (servo.c line 350). -/
def klen_of (len : Nat) : Nat := if len < 15 then len else 15

/-- Size of the stack buffer kbuf in servo_write (servo.c line 349). -/
def kbuf_size : Nat := 16

/-- Index of the NUL-terminator store kbuf[klen+1] (servo.c line 358). -/
def term_store_index (len : Nat) : Nat := klen_of len + 1

/-- Indices of kbuf written by servo_write before parsing: copy_from_user
fills indices below klen (servo.c line 352) and the terminator store fills
index klen+1 (servo.c line 358). -/
def kbuf_written (len i : Nat) : Bool :=
  decide (i < klen_of len) || decide (i = term_store_index len)

/-- Numeric value of a run of decimal digits, most significant first. -/
def digits_value (cs : List Char) : Nat :=
  cs.foldl (fun acc c => acc * 10 + (c.toNat - 48)) 0

/-- Model of sscanf(kbuf, "%d\n", ...) (servo.c line 359): skip leading
whitespace, then an optional sign followed by a nonempty run of decimal
digits; none when the conversion fails. -/
def scan_int (cs : List Char) : Option Int :=
  let cs1 := cs.dropWhile (fun c =>
    c == ' ' || c == '\t' || c == '\n' || c == '\x0b' || c == '\x0c' || c == '\r')
  match cs1 with
  | '-' :: rest =>
    let ds := rest.takeWhile Char.isDigit
    if ds.isEmpty then none else some (-(digits_value ds : Int))
  | '+' :: rest =>
    let ds := rest.takeWhile Char.isDigit
    if ds.isEmpty then none else some ((digits_value ds : Int))
  | rest =>
    let ds := rest.takeWhile Char.isDigit
    if ds.isEmpty then none else some ((digits_value ds : Int))

/-- Reinterpretation of the int produced by the %d conversion as the unsigned
int variable period_ns it is stored through (servo.c line 348): the value
modulo 2^32. -/
def uint_of_int (z : Int) : Nat := (z % (4294967296 : Int)).toNat

/-- Textual write path servo_write (servo.c lines 345-379): copy
klen = min(len,15) bytes of the user buffer, parse them as a decimal int; on
parse failure return klen with the state unchanged; on success clamp the
value (compared as the unsigned variable it was stored into) to
[MIN_PERIOD, MAX_PERIOD] and commit it with atomic_set, returning klen. -/
def servo_write (servo : servo_data) (buf : List Char) (len : Nat) :
    servo_data × Nat :=
  let klen := klen_of len
  let kbuf := buf.take klen
  match scan_int kbuf with
  | none => (servo, klen)
  | some z =>
    let period_ns := uint_of_int z
    let period_ns :=
      if period_ns < MIN_PERIOD then MIN_PERIOD
      else if period_ns > MAX_PERIOD then MAX_PERIOD
      else period_ns
    ({ servo with period_ns := period_ns }, klen)

/-- IOCTL command set (servo.c lines 48-54); the payload of WF and WV is the
uint32 copied from user space. UNKNOWN stands for any unrecognized command
number. -/
inductive ioctl_cmd where
| ENB
| DIS
| INV
| WF (arg : Nat)
| RF
| WV (arg : Nat)
| RV
| UNKNOWN (cmd : Nat)
deriving DecidableEq, Repr

/-- Result of servo_ioctl: the updated channel state, the return code, and
the value copied back to user space when the command reads one. -/
structure ioctl_result where
  state : servo_data
  ret : Int
  out : Option Nat
deriving DecidableEq, Repr

/-- Control path servo_ioctl (servo.c lines 381-479), on its successful
copy_from_user / copy_to_user paths. -/
def servo_ioctl (servo : servo_data) (cmd : ioctl_cmd) : ioctl_result :=
  match cmd with
  | .ENB =>
    { state := { servo with
        flags := set_bit SERVO_ENABLED (clear_bit SERVO_ACTIVE servo.flags) },
      ret := 0, out := none }
  | .DIS =>
    { state := { servo with flags := clear_bit SERVO_ENABLED servo.flags },
      ret := 0, out := none }
  | .INV =>
    { state := { servo with flags := change_bit SERVO_INVERTED servo.flags },
      ret := 0, out := none }
  | .WF new_value =>
    let flags1 :=
      if new_value &&& (1 <<< SERVO_ENABLED) ≠ 0 then set_bit SERVO_ENABLED servo.flags
      else clear_bit SERVO_ENABLED servo.flags
    let flags2 :=
      if new_value &&& (1 <<< SERVO_INVERTED) ≠ 0 then set_bit SERVO_INVERTED flags1
      else clear_bit SERVO_INVERTED flags1
    { state := { servo with flags := flags2 }, ret := 0, out := none }
  | .RF =>
    let out_value :=
      (if test_bit SERVO_ENABLED servo.flags then 1 <<< SERVO_ENABLED else 0) |||
      (if test_bit SERVO_INVERTED servo.flags then 1 <<< SERVO_INVERTED else 0)
    { state := servo, ret := 0, out := some out_value }
  | .WV new_value =>
    let v :=
      if new_value < MIN_PERIOD then MIN_PERIOD
      else if new_value > MAX_PERIOD then MAX_PERIOD
      else new_value
    { state := { servo with period_ns := v }, ret := 0, out := none }
  | .RV => { state := servo, ret := 0, out := some servo.period_ns }
  | .UNKNOWN _ => { state := servo, ret := -5, out := none }

/-- Channels successfully acquired by the gpio loop of servo_probe (servo.c
lines 174-190) before the first acquisition failure, in acquisition order. -/
def acquired_channels (n : Nat) (gpio_ok : Nat → Bool) : List Nat :=
  (List.range n).takeWhile gpio_ok

/-- First channel whose gpiod_get_index call fails in servo_probe, if any. -/
def first_gpio_failure (n : Nat) (gpio_ok : Nat → Bool) : Option Nat :=
  (List.range n).find? (fun i => !(gpio_ok i))

/-- Channels touched by the gpio_fail cleanup of servo_probe (servo.c lines
229-235): the loop runs i = 0 .. n_servos-1, cancelling the timer, forcing
the line low and releasing the gpio of every channel, in increasing order. -/
def gpio_fail_cleanup (n : Nat) : List Nat := List.range n

/-- Modelled from the spec: the unwind the specification requires after a
gpio acquisition failure at channel k, namely exactly the previously-acquired
channels 0..k-1 in reverse acquisition order. -/
def spec_required_unwind (k : Nat) : List Nat := (List.range k).reverse

/-- Absolute instant of the busy-loop variant, struct timespec
(servo_user_test.c). -/
structure timespec where
  tv_sec : Nat
  tv_nsec : Nat
deriving DecidableEq, Repr

/-- Nanosecond value of a timespec. -/
def ts_to_ns (t : timespec) : Nat := t.tv_sec * 1000000000 + t.tv_nsec

/-- Deadline computation of one iteration of the servo_channel loop
(servo_user_test.c lines 174-180): t_switch = t_next + pulse_ns,
t_next = t_next + 20000000, both normalized and both then used as absolute
sleep targets with clock_nanosleep TIMER_ABSTIME (lines 182 and 186). -/
def servo_channel_step (t_next : timespec) (pulse_ns : Nat) :
    timespec × timespec :=
  let t_switch_nsec := t_next.tv_nsec + pulse_ns
  let t_next_nsec := t_next.tv_nsec + 20000000
  let t_switch : timespec :=
    { tv_sec := t_next.tv_sec + t_switch_nsec / 1000000000,
      tv_nsec := t_switch_nsec % 1000000000 }
  let t_next2 : timespec :=
    { tv_sec := t_next.tv_sec + t_next_nsec / 1000000000,
      tv_nsec := t_next_nsec % 1000000000 }
  (t_switch, t_next2)

theorem test_bit_set_bit (i j f : Nat) :
    test_bit i (set_bit j f) = (test_bit i f || decide (j = i)) := by
  simp [test_bit, set_bit, Nat.one_shiftLeft, Nat.testBit_lor, Nat.testBit_two_pow]

theorem test_bit_change_bit (i j f : Nat) :
    test_bit i (change_bit j f) = (xor (test_bit i f) (decide (j = i))) := by
  simp [test_bit, change_bit, Nat.one_shiftLeft, Nat.testBit_xor, Nat.testBit_two_pow]

theorem test_bit_clear_bit (i j f : Nat) (hi : i < BITS_PER_LONG) :
    test_bit i (clear_bit j f) = (test_bit i f && !decide (j = i)) := by
  unfold test_bit clear_bit
  rw [Nat.testBit_land, Nat.testBit_xor, Nat.one_shiftLeft,
    Nat.testBit_two_pow_sub_one BITS_PER_LONG i, Nat.testBit_two_pow,
    decide_eq_true hi]
  cases f.testBit i <;> cases (decide (j = i)) <;> rfl

theorem sub_u64_of_le (a b : Nat) (hb : b ≤ a) (ha : a < U64) :
    sub_u64 a b = a - b := by
  unfold sub_u64 U64 at *
  omega

/-- C4: a firing while the channel is disabled changes no output line and no
per-channel state, and re-arms the timer for exactly SERVO_PERIOD
(20,000,000 ns) after the previous deadline. -/
theorem disabled_firing_rearms_one_frame (now : Nat) (s : servo_data)
    (h : test_bit SERVO_ENABLED s.flags = false) :
    servo_cb now s = { s with expires := s.expires + SERVO_PERIOD } := by
  simp [servo_cb, h]

/-- Witness for the disabled-firing theorem at the freshly initialized
channel state. -/
theorem disabled_firing_rearms_one_frame_witness :
    servo_cb 12345 init_servo =
      { init_servo with expires := init_servo.expires + SERVO_PERIOD } :=
  disabled_firing_rearms_one_frame 12345 init_servo (by decide)

/-- C2: every re-arm adds the chosen duration (t_next, t_switch = period_ns,
or SERVO_PERIOD) to the previous scheduled expiry; the callback does not
depend on the wall-clock instant at which it actually ran; and the busy-loop
thread variant advances both absolute deadlines from the previous absolute
deadline value. -/
theorem rearm_relative_to_previous_deadline (s : servo_data) (now1 now2 : Nat)
    (t : timespec) (pulse : Nat) :
    servo_cb now1 s = servo_cb now2 s ∧
    (servo_cb now1 s).expires = s.expires +
      (if test_bit SERVO_ENABLED s.flags then
        (if test_bit SERVO_ACTIVE s.flags then s.t_next else s.period_ns)
      else SERVO_PERIOD) ∧
    ts_to_ns (servo_channel_step t pulse).1 = ts_to_ns t + pulse ∧
    ts_to_ns (servo_channel_step t pulse).2 = ts_to_ns t + 20000000 := by
  refine ⟨rfl, ?_, ?_, ?_⟩
  · by_cases h1 : test_bit SERVO_ENABLED s.flags <;>
      by_cases h2 : test_bit SERVO_ACTIVE s.flags <;>
      simp [servo_cb, h1, h2]
  · simp [servo_channel_step, ts_to_ns]
    omega
  · simp [servo_channel_step, ts_to_ns]
    omega

/-- C1: a frame that begins with an IDLE to PULSE_HIGH firing records
t_switch as the single read of period_ns at pulse start, arms the low phase
for t_next = SERVO_PERIOD - t_switch, and the two phase durations of the
frame sum to exactly SERVO_PERIOD even if period_ns is rewritten to any
value w before the second firing. -/
theorem frame_phase_sum_exact (s : servo_data) (now1 now2 w : Nat)
    (henb : test_bit SERVO_ENABLED s.flags = true)
    (hact : test_bit SERVO_ACTIVE s.flags = false)
    (hper : s.period_ns ≤ SERVO_PERIOD) :
    (servo_cb now1 s).t_switch = s.period_ns ∧
    (servo_cb now1 s).t_next = SERVO_PERIOD - (servo_cb now1 s).t_switch ∧
    ((servo_cb now1 s).expires - s.expires) +
      ((servo_cb now2 { servo_cb now1 s with period_ns := w }).expires -
        (servo_cb now1 s).expires) = SERVO_PERIOD := by
  have hsub : sub_u64 SERVO_PERIOD s.period_ns = SERVO_PERIOD - s.period_ns :=
    sub_u64_of_le SERVO_PERIOD s.period_ns hper (by decide)
  have h1 : servo_cb now1 s =
      { s with
          gpio_value := !test_bit SERVO_INVERTED s.flags,
          flags := set_bit SERVO_ACTIVE s.flags,
          t_switch := s.period_ns,
          t_next := SERVO_PERIOD - s.period_ns,
          expires := s.expires + s.period_ns } := by
    simp [servo_cb, henb, hact, hsub]
  have henb2 : test_bit SERVO_ENABLED (set_bit SERVO_ACTIVE s.flags) = true := by
    rw [test_bit_set_bit, henb]
    simp
  have hact2 : test_bit SERVO_ACTIVE (set_bit SERVO_ACTIVE s.flags) = true := by
    rw [test_bit_set_bit]
    simp
  rw [h1]
  simp [servo_cb, henb2, hact2]
  unfold SERVO_PERIOD at *
  omega

/-- Witness for the frame-sum theorem on an enabled idle channel with a
mid-range width of 1,500,000 ns, rewritten to 1,800,000 ns mid-frame. -/
theorem frame_phase_sum_exact_witness :
    (servo_cb 5 enabled_servo).t_switch = enabled_servo.period_ns ∧
    (servo_cb 5 enabled_servo).t_next =
      SERVO_PERIOD - (servo_cb 5 enabled_servo).t_switch ∧
    ((servo_cb 5 enabled_servo).expires - enabled_servo.expires) +
      ((servo_cb 6 { servo_cb 5 enabled_servo with period_ns := 1800000 }).expires -
        (servo_cb 5 enabled_servo).expires) = SERVO_PERIOD :=
  frame_phase_sum_exact enabled_servo 5 6 1800000 (by decide) (by decide) (by decide)

/-- C3: writing a width v through the SERVO_WV ioctl and then reading it back
through SERVO_RV yields the clamped value max(MIN_PERIOD, min(v, MAX_PERIOD)),
and a parseable textual write of a nonnegative in-int-range decimal z leaves
the stored width at the same clamp of z. -/
theorem width_write_then_read_clamps (s : servo_data) (v : Nat)
    (buf : List Char) (len : Nat) (z : Int)
    (hscan : scan_int (buf.take (klen_of len)) = some z)
    (hz0 : 0 ≤ z) (hz1 : z < 2147483648) :
    (servo_ioctl (servo_ioctl s (.WV v)).state .RV).out =
      some (max MIN_PERIOD (min v MAX_PERIOD)) ∧
    (servo_write s buf len).1.period_ns =
      max MIN_PERIOD (min z.toNat MAX_PERIOD) := by
  have hu : uint_of_int z = z.toNat := by
    simp only [uint_of_int]
    omega
  constructor
  · simp [servo_ioctl, MIN_PERIOD, MAX_PERIOD]
    split_ifs <;> omega
  · simp [servo_write, hscan, hu, MIN_PERIOD, MAX_PERIOD]
    split_ifs <;> omega

/-- Witness for the clamp theorem at the in-range value 1,500,000, submitted
both through the ioctl path and as the text 1500000 followed by newline. -/
theorem width_write_then_read_clamps_witness :
    (servo_ioctl (servo_ioctl init_servo (.WV 1500000)).state .RV).out =
      some (max MIN_PERIOD (min 1500000 MAX_PERIOD)) ∧
    (servo_write init_servo ['1', '5', '0', '0', '0', '0', '0', '\n'] 8).1.period_ns =
      max MIN_PERIOD (min (Int.toNat 1500000) MAX_PERIOD) :=
  width_write_then_read_clamps init_servo 1500000
    ['1', '5', '0', '0', '0', '0', '0', '\n'] 8 1500000
    (by decide) (by decide) (by decide)

/-- C7: a textual write whose copied bytes do not parse as a decimal integer
returns the consumed byte count min(len, 15) as success and leaves the
channel state completely unchanged. -/
theorem unparseable_write_consumed_without_state_change (s : servo_data)
    (buf : List Char) (len : Nat)
    (h : scan_int (buf.take (klen_of len)) = none) :
    servo_write s buf len = (s, klen_of len) ∧ klen_of len = min len 15 := by
  constructor
  · simp [servo_write, h]
  · unfold klen_of
    split <;> omega

/-- Witness for the unparseable-write theorem on the raw write of the four
bytes abc plus newline. -/
theorem unparseable_write_consumed_without_state_change_witness :
    servo_write init_servo ['a', 'b', 'c', '\n'] 4 = (init_servo, klen_of 4) ∧
    klen_of 4 = min 4 15 :=
  unparseable_write_consumed_without_state_change init_servo
    ['a', 'b', 'c', '\n'] 4 (by decide)

/-- C10: every textual write whose decimal text parses to a negative int z
is reinterpreted through the unsigned period_ns variable as z + 2^32, which
exceeds MAX_PERIOD, so the stored width clamps to the maximum 2,000,000 and
not to the minimum 1,000,000. -/
theorem negative_text_write_clamps_to_max (s : servo_data) (buf : List Char)
    (len : Nat) (z : Int)
    (hscan : scan_int (buf.take (klen_of len)) = some z)
    (hlo : -2147483648 ≤ z) (hneg : z < 0) :
    uint_of_int z = (z + 4294967296).toNat ∧
    MAX_PERIOD < uint_of_int z ∧
    (servo_write s buf len).1.period_ns = MAX_PERIOD ∧
    MAX_PERIOD ≠ MIN_PERIOD := by
  refine ⟨?_, ?_, ?_, by decide⟩
  · simp only [uint_of_int]
    omega
  · simp only [uint_of_int, MAX_PERIOD]
    omega
  · simp [servo_write, hscan]
    simp only [uint_of_int, MIN_PERIOD, MAX_PERIOD]
    split_ifs <;> omega

/-- Witness for the negative-text theorem at the raw write of the three
bytes -5 plus newline. -/
theorem negative_text_write_clamps_to_max_witness :
    uint_of_int (-5) = ((-5 : Int) + 4294967296).toNat ∧
    MAX_PERIOD < uint_of_int (-5) ∧
    (servo_write init_servo ['-', '5', '\n'] 3).1.period_ns = MAX_PERIOD ∧
    MAX_PERIOD ≠ MIN_PERIOD :=
  negative_text_write_clamps_to_max init_servo ['-', '5', '\n'] 3 (-5)
    (by decide) (by decide) (by decide)

/-- C5 as stated is refuted by the code: with the phase bit set, the ENABLE
ioctl (a Control Interface operation) clears the SERVO_ACTIVE bit, so the
phase bit is not transitioned only inside the timer callback. -/
theorem enable_ioctl_clears_phase_bit :
    test_bit SERVO_ACTIVE (5 : Nat) = true ∧
    test_bit SERVO_ACTIVE
      (servo_ioctl ⟨true, 1500000, 5, 1500000, 18500000, 0, 40000000⟩
        ioctl_cmd.ENB).state.flags = false := by
  decide

/-- C5 amended: the SERVO_ACTIVE phase bit is transitioned only by the timer
callback and by the ENABLE ioctl, which clears it; every other control
operation (open, release, textual write, DIS, INV, WF, RF, WV, RV, unknown
command) leaves the phase bit unchanged, and the timer callback never
modifies the enabled bit, the inverted bit, or period_ns. -/
theorem phase_and_flag_field_ownership (s : servo_data) (cmd : ioctl_cmd)
    (buf : List Char) (len now : Nat) :
    (cmd ≠ ioctl_cmd.ENB →
      test_bit SERVO_ACTIVE (servo_ioctl s cmd).state.flags =
        test_bit SERVO_ACTIVE s.flags) ∧
    test_bit SERVO_ACTIVE (servo_ioctl s ioctl_cmd.ENB).state.flags = false ∧
    test_bit SERVO_ACTIVE (servo_open s).1.flags = test_bit SERVO_ACTIVE s.flags ∧
    test_bit SERVO_ACTIVE (servo_release s).1.flags = test_bit SERVO_ACTIVE s.flags ∧
    test_bit SERVO_ACTIVE (servo_write s buf len).1.flags = test_bit SERVO_ACTIVE s.flags ∧
    test_bit SERVO_ENABLED (servo_cb now s).flags = test_bit SERVO_ENABLED s.flags ∧
    test_bit SERVO_INVERTED (servo_cb now s).flags = test_bit SERVO_INVERTED s.flags ∧
    (servo_cb now s).period_ns = s.period_ns := by
  refine ⟨?_, ?_, ?_, ?_, ?_, ?_, ?_, ?_⟩
  · intro hne
    cases cmd with
    | ENB => exact absurd rfl hne
    | DIS =>
      simp [servo_ioctl, test_bit_clear_bit, SERVO_ENABLED, SERVO_ACTIVE, BITS_PER_LONG]
    | INV =>
      simp [servo_ioctl, test_bit_change_bit, SERVO_INVERTED, SERVO_ACTIVE]
    | WF v =>
      simp only [servo_ioctl]
      split_ifs <;>
        simp [test_bit_set_bit, test_bit_clear_bit, SERVO_ENABLED, SERVO_INVERTED,
          SERVO_ACTIVE, BITS_PER_LONG]
    | RF => rfl
    | WV v => rfl
    | RV => rfl
    | UNKNOWN c => rfl
  · simp [servo_ioctl, test_bit_set_bit, test_bit_clear_bit, SERVO_ENABLED,
      SERVO_ACTIVE, BITS_PER_LONG]
  · unfold servo_open
    split <;> simp [test_bit_set_bit, SERVO_OPEN, SERVO_ACTIVE]
  · simp [servo_release, test_bit_clear_bit, SERVO_OPEN, SERVO_ACTIVE, BITS_PER_LONG]
  · rcases hsc : scan_int (buf.take (klen_of len)) with _ | z <;>
      simp [servo_write, hsc]
  · simp only [servo_cb, SERVO_ENABLED, SERVO_ACTIVE]
    by_cases h1 : test_bit 0 s.flags <;> by_cases h2 : test_bit 2 s.flags <;>
      simp [h1, h2, test_bit_set_bit, test_bit_clear_bit, BITS_PER_LONG]
  · simp only [servo_cb, SERVO_ENABLED, SERVO_INVERTED, SERVO_ACTIVE]
    by_cases h1 : test_bit 0 s.flags <;> by_cases h2 : test_bit 2 s.flags <;>
      simp [h1, h2, test_bit_set_bit, test_bit_clear_bit, BITS_PER_LONG]
  · simp only [servo_cb, SERVO_ENABLED, SERVO_ACTIVE]
    by_cases h1 : test_bit 0 s.flags <;> by_cases h2 : test_bit 2 s.flags <;>
      simp [h1, h2]

/-- Witness for the amended ownership theorem: the DISABLE ioctl on an
enabled channel leaves the phase bit alone, ENABLE clears it, and a callback
firing preserves the enabled bit. -/
theorem phase_and_flag_field_ownership_witness :
    test_bit SERVO_ACTIVE (servo_ioctl enabled_servo ioctl_cmd.DIS).state.flags =
      test_bit SERVO_ACTIVE enabled_servo.flags ∧
    test_bit SERVO_ACTIVE (servo_ioctl enabled_servo ioctl_cmd.ENB).state.flags = false ∧
    test_bit SERVO_ENABLED (servo_cb 0 enabled_servo).flags =
      test_bit SERVO_ENABLED enabled_servo.flags := by
  have h := phase_and_flag_field_ownership enabled_servo ioctl_cmd.DIS ['a'] 1 0
  exact ⟨h.1 (by decide), h.2.1, h.2.2.2.2.2.1⟩

/-- C8: a second open of a channel whose SERVO_OPEN bit is set fails with -1
and changes nothing; an open of an unopened channel succeeds and sets only
the open bit; release clears the open bit. -/
theorem single_open_session (s : servo_data) :
    (test_bit SERVO_OPEN s.flags = true → servo_open s = (s, -1)) ∧
    (test_bit SERVO_OPEN s.flags = false →
      servo_open s = ({ s with flags := set_bit SERVO_OPEN s.flags }, 0) ∧
      test_bit SERVO_OPEN (servo_open s).1.flags = true) ∧
    test_bit SERVO_OPEN (servo_release s).1.flags = false := by
  refine ⟨?_, ?_, ?_⟩
  · intro h
    simp [servo_open, h]
  · intro h
    refine ⟨by simp [servo_open, h], ?_⟩
    simp [servo_open, h, test_bit_set_bit]
  · simp [servo_release, test_bit_clear_bit, SERVO_OPEN, BITS_PER_LONG]

/-- Witness for the single-session theorem: a double open on an opened
channel is rejected unchanged, and an open on a fresh channel succeeds. -/
theorem single_open_session_witness :
    servo_open opened_servo = (opened_servo, -1) ∧
    servo_open init_servo =
      ({ init_servo with flags := set_bit SERVO_OPEN init_servo.flags }, 0) :=
  ⟨(single_open_session opened_servo).1 (by decide),
   ((single_open_session init_servo).2.1 (by decide)).1⟩

/-- C9: the terminator store of servo_write lands at index min(len,15)+1 and
never at min(len,15): for every len with 15 ≤ len it targets index 16, one
byte past the last valid index of the 16-byte kbuf, and for len < 15 the byte
at index min(len,15) is left unwritten before the buffer is parsed. -/
theorem write_terminator_off_by_one (len : Nat) :
    term_store_index len = klen_of len + 1 ∧
    term_store_index len ≠ klen_of len ∧
    (15 ≤ len → term_store_index len = kbuf_size ∧
      ¬ term_store_index len < kbuf_size) ∧
    (len < 15 → kbuf_written len (klen_of len) = false) := by
  refine ⟨rfl, ?_, ?_, ?_⟩
  · unfold term_store_index
    omega
  · intro h
    unfold term_store_index klen_of kbuf_size
    constructor <;> split <;> omega
  · intro h
    unfold kbuf_written term_store_index
    rw [Bool.or_eq_false_iff]
    constructor <;> rw [decide_eq_false_iff_not] <;> omega

/-- Witness for the terminator theorem at a long write of 20 bytes and a
short write of 3 bytes. -/
theorem write_terminator_off_by_one_witness :
    (term_store_index 20 = kbuf_size ∧ ¬ term_store_index 20 < kbuf_size) ∧
    kbuf_written 3 (klen_of 3) = false :=
  ⟨(write_terminator_off_by_one 20).2.2.1 (by decide),
   (write_terminator_off_by_one 3).2.2.2 (by decide)⟩

/-- C6 fails on the code: with two servos and gpio acquisition failing at
channel 0, no channel was acquired, yet the gpio_fail cleanup loop of
servo_probe touches both channels 0 and 1 and in forward order, instead of
the required reverse-order unwind of exactly the acquired prefix, which here
is empty. -/
theorem gpio_fail_cleanup_touches_unacquired :
    first_gpio_failure 2 (fun _ => false) = some 0 ∧
    acquired_channels 2 (fun _ => false) = [] ∧
    gpio_fail_cleanup 2 = [0, 1] ∧
    spec_required_unwind 0 = [] ∧
    gpio_fail_cleanup 2 ≠ spec_required_unwind 0 ∧
    1 ∈ gpio_fail_cleanup 2 ∧ ¬ 1 ∈ acquired_channels 2 (fun _ => false) := by
  decide

end Servo
